import Mathlib

/-!
# Shallow embedding of `src/backend/monitor.py` (CodeVault Performance Monitor)

The program is sequential orchestration of HTTP sampling plus arithmetic
aggregation.  We model:

* wall-clock durations and latencies as exact rationals (`ℚ`),
* payload sizes as `ℕ` when they come from `len(response.content)` and as `ℤ`
  when they are backend-reported JSON numbers (`data.get("bytes", 0)`),
* Python's `round(x, 2)` as rounding to the nearest multiple of 1/100 with
  ties to even (Python's rounding mode), as `pyRound2`,
* a network interaction outcome as either an HTTP response or a raised
  `requests` exception (`NetOutcome`), and
* each Python result dict as a record with `Option` fields mirroring which
  keys the dict carries on each code path (`SampleRecord`).

`statistics.mean` is `sum / length`; `statistics.stdev` is the square root of
the Bessel-corrected sample variance, so summary records carry their
`std_dev` field as a real number.
-/

namespace Monitor

/-- Round a rational to the nearest integer, ties to even
(the rounding mode of Python's builtin `round`). -/
def roundHalfEven (q : ℚ) : ℤ :=
  if q - ⌊q⌋ < 1/2 then ⌊q⌋
  else if 1/2 < q - ⌊q⌋ then ⌊q⌋ + 1
  else if 2 ∣ ⌊q⌋ then ⌊q⌋ else ⌊q⌋ + 1

/-- Python's `round(x, 2)` on an exact rational. -/
def pyRound2 (q : ℚ) : ℚ := (roundHalfEven (q * 100) : ℚ) / 100

/-- Rounding a real to the nearest integer, ties to even; the same map as
`roundHalfEven` but on `ℝ`, needed because `statistics.stdev` produces a
square root. -/
noncomputable def roundHalfEvenR (x : ℝ) : ℤ :=
  if x - ⌊x⌋ < 1/2 then ⌊x⌋
  else if 1/2 < x - ⌊x⌋ then ⌊x⌋ + 1
  else if 2 ∣ ⌊x⌋ then ⌊x⌋ else ⌊x⌋ + 1

/-- Python's `round(x, 2)` on a real value. -/
noncomputable def round2R (x : ℝ) : ℝ := (roundHalfEvenR (x * 100) : ℝ) / 100

/-- The JSON object returned by `GET /api/benchmark/p2p/{cid}` on success,
as read by `measure_p2p_download`: `data.get("bytes", 0)` and
`data.get("speedMbps", 0)`.  A JSON number may be negative, so `bytes`
is an integer, not a natural. -/
structure P2PJson where
  bytes : ℤ
  speedMbps : ℚ
  deriving DecidableEq

/-- An HTTP response as observed by the samplers:
`status_code`, `len(response.content)`, `response.text`, and the result of
`response.json()` (`none` models a body that raises on decoding, with
`jsonErrMsg` the exception text `str(e)`). -/
structure HttpResponse where
  status_code : ℕ
  contentLength : ℕ
  text : String
  p2pJson : Option P2PJson
  jsonErrMsg : String
  deriving DecidableEq

/-- Outcome of one `requests.get` call: either a response, or a raised
`requests.RequestException` carrying the text `str(e)`. -/
inductive NetOutcome where
  | response (r : HttpResponse)
  | requestError (msg : String)
  deriving DecidableEq

/-- One measurement dict as produced by the samplers.  `Option` fields mirror
which keys the Python dict carries on each code path. -/
structure SampleRecord where
  rtype : Option String
  url : Option String
  cid : Option String
  status : Option ℕ
  latency_ms : Option ℚ
  size_bytes : Option ℤ
  speed_mbps : Option ℚ
  error : Option String
  success : Bool
  deriving DecidableEq

/-- `measure_latency(url, timeout)`: one timed GET; on a response it returns a
success dict with `status`, `latency_ms = round((end-start)*1000, 2)` and
`size_bytes = len(response.content)` — the status code is recorded but not
inspected.  Only a raised `requests.RequestException` yields a failure dict
with `error = str(e)`.  `elapsed` is the wall-clock duration
`end_time - start_time` in seconds. -/
def measure_latency (urlArg : String) (elapsed : ℚ) (out : NetOutcome) :
    SampleRecord :=
  match out with
  | .response r =>
      { rtype := none, url := some urlArg, cid := none,
        status := some r.status_code,
        latency_ms := some (pyRound2 (elapsed * 1000)),
        size_bytes := some (r.contentLength : ℤ),
        speed_mbps := none, error := none, success := true }
  | .requestError e =>
      { rtype := none, url := some urlArg, cid := none, status := none,
        latency_ms := none, size_bytes := none, speed_mbps := none,
        error := some e, success := false }

/-- `measure_p2p_download(cid)`: GET on the benchmark endpoint; on a 200
response it decodes the JSON body and builds a success dict passing
`bytes`/`speedMbps` through unvalidated; on any other status it returns a
failure dict whose `error` is the raw `response.text`; any exception
(request error, JSON decode error) becomes a failure dict with
`error = str(e)`. -/
def measure_p2p_download (cidArg : String) (elapsed : ℚ) (out : NetOutcome) :
    SampleRecord :=
  match out with
  | .response r =>
      if r.status_code = 200 then
        match r.p2pJson with
        | some d =>
            { rtype := some "P2P", url := none, cid := some cidArg,
              status := none,
              latency_ms := some (pyRound2 (elapsed * 1000)),
              size_bytes := some d.bytes, speed_mbps := some d.speedMbps,
              error := none, success := true }
        | none =>
            { rtype := some "P2P", url := none, cid := none, status := none,
              latency_ms := none, size_bytes := none, speed_mbps := none,
              error := some r.jsonErrMsg, success := false }
      else
        { rtype := some "P2P", url := none, cid := none, status := none,
          latency_ms := none, size_bytes := none, speed_mbps := none,
          error := some r.text, success := false }
  | .requestError e =>
      { rtype := some "P2P", url := none, cid := none, status := none,
        latency_ms := none, size_bytes := none, speed_mbps := none,
        error := some e, success := false }

/-- `measure_centralized_download(url)`: one timed GET; on a response it
builds a success dict (without inspecting the status code) with
`latency_ms = round(duration*1000, 2)`, `size_bytes = len(response.content)`
and `speed_mbps = round(size_bytes*8/duration/1_000_000, 2)` guarded by
`duration > 0`; any exception becomes a failure dict with `error = str(e)`. -/
def measure_centralized_download (urlArg : String) (elapsed : ℚ)
    (out : NetOutcome) : SampleRecord :=
  match out with
  | .response r =>
      let duration := elapsed
      let size_bytes := (r.contentLength : ℚ)
      let speed_mbps : ℚ :=
        if 0 < duration then size_bytes * 8 / duration / 1000000 else 0
      { rtype := some "Centralized", url := some urlArg, cid := none,
        status := none,
        latency_ms := some (pyRound2 (duration * 1000)),
        size_bytes := some (r.contentLength : ℤ),
        speed_mbps := some (pyRound2 speed_mbps),
        error := none, success := true }
  | .requestError e =>
      { rtype := some "Centralized", url := none, cid := none, status := none,
        latency_ms := none, size_bytes := none, speed_mbps := none,
        error := some e, success := false }

/-- `statistics.mean` on an exact list of rationals: sum divided by length
(the Python call raises on an empty list; in the program it is only reached
behind a non-emptiness guard). -/
def mean (l : List ℚ) : ℚ := l.sum / l.length

/-- Python's builtin `min` on a non-empty list (`0` stands in for the raise on
an empty list, which the program never reaches). -/
def listMin : List ℚ → ℚ
  | [] => 0
  | x :: xs => xs.foldl min x

/-- Python's builtin `max` on a non-empty list. -/
def listMax : List ℚ → ℚ
  | [] => 0
  | x :: xs => xs.foldl max x

/-- The Bessel-corrected sample variance computed inside `statistics.stdev`:
`Σ (x - mean)² / (n - 1)` (only reached with `n ≥ 2` behind the
`len(...) > 1` guard). -/
def sampleVar (l : List ℚ) : ℚ :=
  (l.map (fun x => (x - mean l) ^ 2)).sum / ((l.length : ℚ) - 1)

/-- `statistics.stdev`: square root of the sample variance. -/
noncomputable def stdev (l : List ℚ) : ℝ := Real.sqrt ((sampleVar l : ℚ) : ℝ)

/-- One per-kind entry of `results["summary"]` built by `run_benchmark`. -/
structure Summary where
  avg_latency_ms : ℚ
  min_latency_ms : ℚ
  max_latency_ms : ℚ
  std_dev : ℝ

/-- The summary entry `run_benchmark` builds for one kind from its latency
list: absent when the list is empty, otherwise rounded mean/min/max and
`round(statistics.stdev(latencies), 2) if len(latencies) > 1 else 0`. -/
noncomputable def summarize (lat : List ℚ) : Option Summary :=
  if lat.isEmpty then none
  else some
    { avg_latency_ms := pyRound2 (mean lat)
      min_latency_ms := pyRound2 (listMin lat)
      max_latency_ms := pyRound2 (listMax lat)
      std_dev := if 1 < lat.length then round2R (stdev lat) else 0 }

/-- The latency list `[r["latency_ms"] for r in results if r["success"]]`.
Every success record carries a `latency_ms` key, so reading the key is the
`filterMap` of the optional field over the success-filtered list. -/
def latenciesOf (results : List SampleRecord) : List ℚ :=
  (results.filter (fun r => r.success)).filterMap (fun r => r.latency_ms)

/-- The nested sampling loops of `run_benchmark` for one kind: for each
target, for each iteration, run the sampler on that iteration's network
outcome and append the result to the sequence only when
`result["success"]` holds.  The outer list ranges over targets, the inner
list over iterations; each element is the pair (elapsed seconds, outcome)
of that request. -/
def collectResults (sampler : ℚ → NetOutcome → SampleRecord)
    (outs : List (List (ℚ × NetOutcome))) : List SampleRecord :=
  outs.flatMap (fun iters =>
    (iters.map (fun p => sampler p.1 p.2)).filter (fun r => r.success))

/-- The `results` dict assembled by `run_benchmark` (the timestamp is
omitted as claim-irrelevant). -/
structure BenchResults where
  p2p_results : List SampleRecord
  centralized_results : List SampleRecord
  summary_p2p : Option Summary
  summary_centralized : Option Summary

/-- `run_benchmark(p2p_cids, public_urls, iterations)`: sample every P2P
target then every centralized target, keeping only successful records, then
summarize each kind's latency list; a kind with an empty latency list gets
no summary entry.  The target identifier strings do not influence any
record field the claims mention, so samplers are applied to the recorded
(elapsed, outcome) pairs with a fixed name argument. -/
noncomputable def run_benchmark (p2pOuts centralOuts : List (List (ℚ × NetOutcome))) :
    BenchResults :=
  let p2p_results := collectResults (measure_p2p_download "cid") p2pOuts
  let centralized_results :=
    collectResults (measure_centralized_download "url") centralOuts
  { p2p_results := p2p_results
    centralized_results := centralized_results
    summary_p2p := summarize (latenciesOf p2p_results)
    summary_centralized := summarize (latenciesOf centralized_results) }

/-- Outcome of the `GET /api/health` probe in `main`: an HTTP response with
some status, or a raised `requests.RequestException`. -/
inductive HealthOutcome where
  | response (status : ℕ)
  | requestError (msg : String)
  deriving DecidableEq

/-- The centralized summary entry `main` builds in demo mode: only
avg/min/max, no `std_dev` key. -/
structure DemoSummary where
  avg_latency_ms : ℚ
  min_latency_ms : ℚ
  max_latency_ms : ℚ
  deriving DecidableEq

/-- The content of `benchmark_results.json` at the moment `json.dump` runs
in `main` (timestamp omitted as claim-irrelevant). -/
structure PersistedDoc where
  p2p_results : List SampleRecord
  centralized_results : List SampleRecord
  summary_p2p : Option DemoSummary
  summary_centralized : Option DemoSummary
  deriving DecidableEq

/-- Observable effects of one run of `main`:
whether the offline message was printed (and the function returned early),
how many centralized sampler calls were made, the persisted file content
(`none` when the early return happens before the save), and the in-memory
mock P2P summary and records fabricated after the save for the chart. -/
structure MainState where
  offlineReturn : Bool
  samplerCalls : ℕ
  persisted : Option PersistedDoc
  chartSummaryP2P : Option DemoSummary
  chartP2PResults : List SampleRecord
  deriving DecidableEq

/-- The mock P2P records `main` fabricates for the chart:
`{"success": True, "latency_ms": p2p_avg + i*5}` for `i in range(-2, 3)`. -/
def mockP2PRecords (p2pAvg : ℚ) : List SampleRecord :=
  (List.range 5).map (fun i =>
    { rtype := none, url := none, cid := none, status := none,
      latency_ms := some (p2pAvg + ((i : ℚ) - 2) * 5),
      size_bytes := none, speed_mbps := none, error := none,
      success := true })

/-- `main()`: health check, then the demo-mode centralized sampling loop
(`PUBLIC_TEST_URLS` × `range(3)`, here generalized to the recorded outcome
grid `urlOuts`), summary with avg/min/max only, `json.dump` of the results,
and — when matplotlib is present and at least one centralized record exists —
the post-save fabrication of mock P2P figures for the chart.
A raised exception on the health request prints the offline message and
returns before any sampling; a non-200 health status only prints a warning
and the run continues. -/
def main (health : HealthOutcome) (hasMatplotlib : Bool)
    (urlOuts : List (List (ℚ × NetOutcome))) : MainState :=
  match health with
  | .requestError _ =>
      { offlineReturn := true, samplerCalls := 0, persisted := none,
        chartSummaryP2P := none, chartP2PResults := [] }
  | .response _ =>
      let centralized_results :=
        collectResults (measure_centralized_download "url") urlOuts
      let samplerCalls := (urlOuts.map List.length).sum
      let latencies := latenciesOf centralized_results
      let summaryC : Option DemoSummary :=
        if latencies.isEmpty then none
        else some
          { avg_latency_ms := pyRound2 (mean latencies)
            min_latency_ms := pyRound2 (listMin latencies)
            max_latency_ms := pyRound2 (listMax latencies) }
      let doc : PersistedDoc :=
        { p2p_results := [], centralized_results := centralized_results,
          summary_p2p := none, summary_centralized := summaryC }
      -- the chart branch runs after `json.dump`, so it contributes only the
      -- in-memory chart fields, never the persisted document
      let chart : Option DemoSummary × List SampleRecord :=
        if hasMatplotlib && !centralized_results.isEmpty then
          match summaryC with
          | some c =>
              (some { avg_latency_ms := c.avg_latency_ms * (3/10)
                      min_latency_ms := c.min_latency_ms * (1/5)
                      max_latency_ms := c.max_latency_ms * (2/5) },
               mockP2PRecords (c.avg_latency_ms * (3/10)))
          | none =>
              -- unreachable: a non-empty record list forces a summary,
              -- since every appended record is a success carrying a latency
              (none, [])
        else (none, [])
      { offlineReturn := false, samplerCalls := samplerCalls,
        persisted := some doc, chartSummaryP2P := chart.1,
        chartP2PResults := chart.2 }

/-- Modelled from the spec: the *population* standard deviation
(`statistics.pstdev`) that the spec's SummaryStatistics section names:
`sqrt (Σ (x - mean)² / n)`.  This is the spec-side definition, to be
compared with the code's `statistics.stdev`. -/
noncomputable def specPopulationStdev (l : List ℚ) : ℝ :=
  Real.sqrt (((l.map (fun x => (x - mean l) ^ 2)).sum / (l.length : ℚ) : ℚ) : ℝ)

/-- A plain 200 response with a 1000-byte body (concrete test input). -/
def resp200 : HttpResponse :=
  { status_code := 200, contentLength := 1000, text := "", p2pJson := none,
    jsonErrMsg := "" }

/-- A 404 response with an empty body (concrete test input). -/
def resp404 : HttpResponse :=
  { status_code := 404, contentLength := 0, text := "", p2pJson := none,
    jsonErrMsg := "" }

/-- A 200 response from the P2P benchmark endpoint whose JSON body reports a
negative byte count (concrete test input). -/
def respP2PNegBytes : HttpResponse :=
  { status_code := 200, contentLength := 0, text := "",
    p2pJson := some { bytes := -1, speedMbps := 0 }, jsonErrMsg := "" }

/-- A 200 response from the P2P benchmark endpoint whose JSON body reports
5 bytes (concrete test input). -/
def respP2PBytes5 : HttpResponse :=
  { status_code := 200, contentLength := 0, text := "",
    p2pJson := some { bytes := 5, speedMbps := 1 }, jsonErrMsg := "" }

/-- Outcome grid of 2 targets × 3 iterations, every request succeeding after
0.1 s (a fixed 100 ms latency). -/
def outs2x3 : List (List (ℚ × NetOutcome)) :=
  [ [(1/10, .response resp200), (1/10, .response resp200),
     (1/10, .response resp200)],
    [(1/10, .response resp200), (1/10, .response resp200),
     (1/10, .response resp200)] ]

/-- Outcome grid of 1 target × 2 iterations with elapsed times 0 s and
0.002 s, producing the latency list [0, 2]. -/
def outs1x2 : List (List (ℚ × NetOutcome)) :=
  [ [(0, .response resp200), (1/500, .response resp200)] ]

/-- The record `measure_centralized_download` produces for a 1000-byte
response received after 0.1 s (concrete test value: 100 ms latency,
0.08 Mbps). -/
def centralRecord100 : SampleRecord :=
  { rtype := some "Centralized", url := some "url", cid := none,
    status := none, latency_ms := some 100, size_bytes := some 1000,
    speed_mbps := some (2/25), error := none, success := true }

/-- The document `main` persists for the `outs2x3` grid: six identical
100 ms centralized records, their summary, and no P2P data. -/
def persistedDoc6 : PersistedDoc :=
  { p2p_results := []
    centralized_results := List.replicate 6 centralRecord100
    summary_p2p := none
    summary_centralized := some
      { avg_latency_ms := 100, min_latency_ms := 100,
        max_latency_ms := 100 } }

/-! ## Basic lemmas about the rounding maps and list folds -/

-- Batteries marks the kernel-reducible `Rat` arithmetic irreducible; restore
-- reducibility locally so that concrete rational computations are decidable
-- by evaluation.
attribute [local semireducible] Rat.mul Rat.add Rat.sub Rat.inv

lemma roundHalfEven_intCast (n : ℤ) : roundHalfEven (n : ℚ) = n := by
  unfold roundHalfEven
  rw [Int.floor_intCast]
  norm_num

lemma roundHalfEven_nonneg (q : ℚ) (h : 0 ≤ q) : 0 ≤ roundHalfEven q := by
  have hf : (0 : ℤ) ≤ ⌊q⌋ := Int.floor_nonneg.mpr h
  unfold roundHalfEven
  split_ifs <;> omega

lemma pyRound2_int_div (k : ℤ) : pyRound2 ((k : ℚ) / 100) = (k : ℚ) / 100 := by
  unfold pyRound2
  rw [div_mul_cancel₀ _ (by norm_num : (100 : ℚ) ≠ 0), roundHalfEven_intCast]

lemma pyRound2_idem (q : ℚ) : pyRound2 (pyRound2 q) = pyRound2 q :=
  pyRound2_int_div (roundHalfEven (q * 100))

lemma pyRound2_zero : pyRound2 0 = 0 := by decide

lemma pyRound2_nonneg (q : ℚ) (h : 0 ≤ q) : 0 ≤ pyRound2 q := by
  unfold pyRound2
  have : (0 : ℤ) ≤ roundHalfEven (q * 100) :=
    roundHalfEven_nonneg _ (by positivity)
  positivity

lemma roundHalfEvenR_intCast (n : ℤ) : roundHalfEvenR (n : ℝ) = n := by
  unfold roundHalfEvenR
  rw [Int.floor_intCast]
  norm_num

lemma round2R_intCast (n : ℤ) : round2R (n : ℝ) = n := by
  unfold round2R
  have h : ((n : ℝ)) * 100 = ((n * 100 : ℤ) : ℝ) := by push_cast; ring
  rw [h, roundHalfEvenR_intCast]
  push_cast
  ring

lemma foldl_min_mem {α : Type*} [LinearOrder α] :
    ∀ (xs : List α) (x : α), xs.foldl min x ∈ x :: xs := by
  intro xs
  induction xs with
  | nil => intro x; simp
  | cons y ys ih =>
    intro x
    rw [List.foldl_cons]
    rcases List.mem_cons.mp (ih (min x y)) with h1 | h1
    · rw [h1]
      rcases min_choice x y with h2 | h2 <;> rw [h2] <;> simp
    · simp [h1]

lemma foldl_min_le_init {α : Type*} [LinearOrder α] :
    ∀ (xs : List α) (x : α), xs.foldl min x ≤ x := by
  intro xs
  induction xs with
  | nil => intro x; simp
  | cons y ys ih =>
    intro x
    rw [List.foldl_cons]
    exact le_trans (ih (min x y)) (min_le_left x y)

lemma foldl_min_le_mem {α : Type*} [LinearOrder α] :
    ∀ (xs : List α) (x d : α), d ∈ xs → xs.foldl min x ≤ d := by
  intro xs
  induction xs with
  | nil => intro x d hd; simp at hd
  | cons y ys ih =>
    intro x d hd
    rw [List.foldl_cons]
    rcases List.mem_cons.mp hd with h | h
    · subst h; exact le_trans (foldl_min_le_init ys (min x d)) (min_le_right x d)
    · exact ih (min x y) d h

lemma foldl_max_mem {α : Type*} [LinearOrder α] :
    ∀ (xs : List α) (x : α), xs.foldl max x ∈ x :: xs := by
  intro xs
  induction xs with
  | nil => intro x; simp
  | cons y ys ih =>
    intro x
    rw [List.foldl_cons]
    rcases List.mem_cons.mp (ih (max x y)) with h1 | h1
    · rw [h1]
      rcases max_choice x y with h2 | h2 <;> rw [h2] <;> simp
    · simp [h1]

lemma foldl_max_init_le {α : Type*} [LinearOrder α] :
    ∀ (xs : List α) (x : α), x ≤ xs.foldl max x := by
  intro xs
  induction xs with
  | nil => intro x; simp
  | cons y ys ih =>
    intro x
    rw [List.foldl_cons]
    exact le_trans (le_max_left x y) (ih (max x y))

lemma foldl_max_mem_le {α : Type*} [LinearOrder α] :
    ∀ (xs : List α) (x d : α), d ∈ xs → d ≤ xs.foldl max x := by
  intro xs
  induction xs with
  | nil => intro x d hd; simp at hd
  | cons y ys ih =>
    intro x d hd
    rw [List.foldl_cons]
    rcases List.mem_cons.mp hd with h | h
    · subst h; exact le_trans (le_max_right x d) (foldl_max_init_le ys (max x d))
    · exact ih (max x y) d h

lemma listMin_mem (l : List ℚ) (h : l ≠ []) : listMin l ∈ l := by
  cases l with
  | nil => exact absurd rfl h
  | cons x xs => exact foldl_min_mem xs x

lemma listMin_le (l : List ℚ) (d : ℚ) (hd : d ∈ l) : listMin l ≤ d := by
  cases l with
  | nil => simp at hd
  | cons x xs =>
    rcases List.mem_cons.mp hd with h | h
    · exact h ▸ foldl_min_le_init xs x
    · exact foldl_min_le_mem xs x d h

lemma listMax_mem (l : List ℚ) (h : l ≠ []) : listMax l ∈ l := by
  cases l with
  | nil => exact absurd rfl h
  | cons x xs => exact foldl_max_mem xs x

lemma le_listMax (l : List ℚ) (d : ℚ) (hd : d ∈ l) : d ≤ listMax l := by
  cases l with
  | nil => simp at hd
  | cons x xs =>
    rcases List.mem_cons.mp hd with h | h
    · exact h ▸ foldl_max_init_le xs x
    · exact foldl_max_mem_le xs x d h

/-! ## Structural lemmas about collected results and summaries -/

lemma mem_collectResults_success (f : ℚ → NetOutcome → SampleRecord)
    (outs : List (List (ℚ × NetOutcome))) (r : SampleRecord)
    (hr : r ∈ collectResults f outs) : r.success = true := by
  unfold collectResults at hr
  rcases List.mem_flatMap.mp hr with ⟨iters, _, hmem⟩
  exact (List.mem_filter.mp hmem).2

lemma mem_collectResults_sampler (f : ℚ → NetOutcome → SampleRecord)
    (outs : List (List (ℚ × NetOutcome))) (r : SampleRecord)
    (hr : r ∈ collectResults f outs) : ∃ e o, r = f e o := by
  unfold collectResults at hr
  rcases List.mem_flatMap.mp hr with ⟨iters, _, hmem⟩
  rcases List.mem_map.mp (List.mem_filter.mp hmem).1 with ⟨p, _, hp⟩
  exact ⟨p.1, p.2, hp.symm⟩

lemma centralized_latency_round_fixed (u : String) (e : ℚ) (o : NetOutcome)
    (q : ℚ) (hq : (measure_centralized_download u e o).latency_ms = some q) :
    pyRound2 q = q := by
  cases o with
  | response r =>
      simp only [measure_centralized_download, Option.some.injEq] at hq
      rw [← hq, pyRound2_idem]
  | requestError m => simp [measure_centralized_download] at hq

lemma p2p_latency_round_fixed (c : String) (e : ℚ) (o : NetOutcome)
    (q : ℚ) (hq : (measure_p2p_download c e o).latency_ms = some q) :
    pyRound2 q = q := by
  cases o with
  | response r =>
      by_cases h200 : r.status_code = 200
      · cases hj : r.p2pJson with
        | some d =>
            simp only [measure_p2p_download, if_pos h200, hj,
              Option.some.injEq] at hq
            rw [← hq, pyRound2_idem]
        | none => simp [measure_p2p_download, if_pos h200, hj] at hq
      · simp [measure_p2p_download, if_neg h200] at hq
  | requestError m => simp [measure_p2p_download] at hq

lemma latenciesOf_round_fixed (f : ℚ → NetOutcome → SampleRecord)
    (hf : ∀ e o q, (f e o).latency_ms = some q → pyRound2 q = q)
    (outs : List (List (ℚ × NetOutcome))) :
    ∀ d ∈ latenciesOf (collectResults f outs), pyRound2 d = d := by
  intro d hd
  unfold latenciesOf at hd
  rcases List.mem_filterMap.mp hd with ⟨r, hrmem, hlat⟩
  rcases mem_collectResults_sampler f outs r (List.mem_filter.mp hrmem).1
    with ⟨e, o, rfl⟩
  exact hf e o d hlat

lemma summarize_of_two_le (D : List ℚ) (hD : 2 ≤ D.length)
    (hfix : ∀ d ∈ D, pyRound2 d = d) :
    summarize D = some
      { avg_latency_ms := pyRound2 (mean D)
        min_latency_ms := listMin D
        max_latency_ms := listMax D
        std_dev := round2R (stdev D) } := by
  have hne : D ≠ [] := by
    intro h; subst h; simp at hD
  have h1 : ¬ (D.isEmpty = true) := by
    simpa [List.isEmpty_iff] using hne
  have h2 : 1 < D.length := by omega
  unfold summarize
  rw [if_neg h1, if_pos h2, hfix _ (listMin_mem D hne),
    hfix _ (listMax_mem D hne)]

lemma summarize_of_one (D : List ℚ) (hD : D.length = 1) :
    summarize D = some
      { avg_latency_ms := pyRound2 (mean D)
        min_latency_ms := pyRound2 (listMin D)
        max_latency_ms := pyRound2 (listMax D)
        std_dev := 0 } := by
  have hne : D ≠ [] := by
    intro h; subst h; simp at hD
  have h1 : ¬ (D.isEmpty = true) := by
    simpa [List.isEmpty_iff] using hne
  have h2 : ¬ (1 < D.length) := by omega
  unfold summarize
  rw [if_neg h1, if_neg h2]

lemma summarize_of_nil (D : List ℚ) (hD : D.length = 0) :
    summarize D = none := by
  have : D.isEmpty = true := by
    cases D with
    | nil => rfl
    | cons x xs => simp at hD
  unfold summarize
  rw [if_pos this]

/-! ## Claim theorems -/

/-- C4: For every successful centralized sample, `speed_mbps` equals
`size_bytes*8 / elapsed_seconds / 1_000_000` rounded to 2 decimal places,
and when the elapsed time is 0 the returned `speed_mbps` is exactly 0
(the `duration > 0` guard avoids the division). -/
theorem C4_centralized_speed (u : String) (e : ℚ) (r : HttpResponse) :
    (measure_centralized_download u e (.response r)).success = true ∧
    (0 < e →
      (measure_centralized_download u e (.response r)).speed_mbps =
        some (pyRound2 ((r.contentLength : ℚ) * 8 / e / 1000000))) ∧
    (e = 0 →
      (measure_centralized_download u e (.response r)).speed_mbps = some 0) := by
  refine ⟨rfl, ?_, ?_⟩
  · intro he
    simp [measure_centralized_download, if_pos he]
  · intro he
    subst he
    simp [measure_centralized_download, pyRound2_zero]

/-- Witness for C4 at elapsed time 1/10 s and a 1000-byte response. -/
theorem C4_witness :
    (0 : ℚ) < 1/10 ∧
    (measure_centralized_download "url" (1/10) (.response resp200)).speed_mbps =
      some (pyRound2 ((resp200.contentLength : ℚ) * 8 / (1/10) / 1000000)) :=
  ⟨by norm_num, (C4_centralized_speed "url" (1/10) resp200).2.1 (by norm_num)⟩

/-- C5: In `run_benchmark`, a sampler result with `success = false` is never
appended to `p2p_results` or `centralized_results`, and each kind's summary
is computed from the latency list drawn from the success-filtered sequence
only. -/
theorem C5_only_successes (p2pOuts centralOuts : List (List (ℚ × NetOutcome))) :
    (∀ r ∈ (run_benchmark p2pOuts centralOuts).p2p_results,
      r.success = true) ∧
    (∀ r ∈ (run_benchmark p2pOuts centralOuts).centralized_results,
      r.success = true) ∧
    (run_benchmark p2pOuts centralOuts).summary_p2p =
      summarize
        (latenciesOf ((run_benchmark p2pOuts centralOuts).p2p_results)) ∧
    (run_benchmark p2pOuts centralOuts).summary_centralized =
      summarize
        (latenciesOf
          ((run_benchmark p2pOuts centralOuts).centralized_results)) := by
  refine ⟨?_, ?_, rfl, rfl⟩
  · intro r hr; exact mem_collectResults_success _ _ r hr
  · intro r hr; exact mem_collectResults_success _ _ r hr

/-- Witness for C5 on a concrete run: a concrete successful record is in the
collected sequence and indeed has `success = true`. -/
theorem C5_witness :
    measure_centralized_download "url" (1/10) (.response resp200) ∈
      (run_benchmark [] outs2x3).centralized_results ∧
    (measure_centralized_download "url" (1/10) (.response resp200)).success =
      true :=
  ⟨by decide, (C5_only_successes [] outs2x3).2.1 _ (by decide)⟩

/-- C10: On every non-200 response from the P2P benchmark endpoint,
`measure_p2p_download` returns a failure record whose `error` field is the
raw response body (`response.text`); with an empty body the error is the
empty string. -/
theorem C10_p2p_non200 (c : String) (e : ℚ) (r : HttpResponse)
    (h : r.status_code ≠ 200) :
    (measure_p2p_download c e (.response r)).success = false ∧
    (measure_p2p_download c e (.response r)).error = some r.text := by
  constructor <;> simp [measure_p2p_download, if_neg h]

/-- Witness for C10 at a 404 response with an empty body: the error field is
the empty string. -/
theorem C10_witness :
    resp404.status_code ≠ 200 ∧
    ((measure_p2p_download "cid" 1 (.response resp404)).success = false ∧
      (measure_p2p_download "cid" 1 (.response resp404)).error = some "") :=
  ⟨by decide, C10_p2p_non200 "cid" 1 resp404 (by decide)⟩

/-- Counterexample to C3: on a non-2xx response (status 404),
`measure_latency` and `measure_centralized_download` both return a record
with `success = true` and no error field — they never inspect the status
code — contradicting the claim that any non-2xx backend response yields
`success = false` with a non-empty error. -/
theorem C3_counterexample :
    resp404.status_code = 404 ∧
    (measure_latency "url" 1 (.response resp404)).success = true ∧
    (measure_latency "url" 1 (.response resp404)).error = none ∧
    (measure_centralized_download "url" 1 (.response resp404)).success = true ∧
    (measure_centralized_download "url" 1 (.response resp404)).error =
      none := by
  refine ⟨rfl, rfl, rfl, rfl, rfl⟩

/-- C3 amended: every sampler is a total function of the request outcome
(no exception escapes); on a network error (raised request exception) each
returns `success = false` with the exception text as its error, non-empty
whenever that text is non-empty; `measure_p2p_download` additionally fails
on a non-200 response (with the body as error); but `measure_latency` and
`measure_centralized_download` return `success = true` for every HTTP
response regardless of status. -/
theorem C3_amended (u c : String) (e : ℚ) (msg : String) (r : HttpResponse)
    (hmsg : msg ≠ "") :
    ((measure_latency u e (.requestError msg)).success = false ∧
      (measure_latency u e (.requestError msg)).error = some msg ∧
      (measure_latency u e (.requestError msg)).error ≠ some "") ∧
    ((measure_centralized_download u e (.requestError msg)).success = false ∧
      (measure_centralized_download u e (.requestError msg)).error =
        some msg ∧
      (measure_centralized_download u e (.requestError msg)).error ≠
        some "") ∧
    ((measure_p2p_download c e (.requestError msg)).success = false ∧
      (measure_p2p_download c e (.requestError msg)).error = some msg ∧
      (measure_p2p_download c e (.requestError msg)).error ≠ some "") ∧
    (measure_latency u e (.response r)).success = true ∧
    (measure_centralized_download u e (.response r)).success = true := by
  refine ⟨⟨rfl, rfl, ?_⟩, ⟨rfl, rfl, ?_⟩, ⟨rfl, rfl, ?_⟩, rfl, rfl⟩ <;>
    simpa [measure_latency, measure_centralized_download,
      measure_p2p_download] using hmsg

/-- Witness for the amended C3 at a concrete non-empty exception text. -/
theorem C3_witness :
    ("boom" : String) ≠ "" ∧
    (measure_latency "url" 1 (.requestError "boom")).success = false ∧
    (measure_latency "url" 1 (.requestError "boom")).error = some "boom" :=
  ⟨by decide,
    ((C3_amended "url" "cid" 1 "boom" resp200 (by decide)).1).1,
    ((C3_amended "url" "cid" 1 "boom" resp200 (by decide)).1).2.1⟩

/-- Counterexample to C9: `measure_p2p_download` copies the backend-reported
`bytes` value into a success record without validation, so a 200 response
whose JSON body reports a negative byte count produces a record with
`success = true` and `size_bytes = -1 < 0`. -/
theorem C9_counterexample :
    (measure_p2p_download "cid" 1 (.response respP2PNegBytes)).success =
      true ∧
    (measure_p2p_download "cid" 1 (.response respP2PNegBytes)).size_bytes =
      some (-1) ∧
    ¬ (0 : ℤ) ≤ -1 := by
  refine ⟨rfl, rfl, by decide⟩

/-- C9 amended: assuming a non-negative elapsed time, every success record
of `measure_latency` and `measure_centralized_download` carries
`latency_ms ≥ 0` and `size_bytes ≥ 0`; a `measure_p2p_download` success
record carries `latency_ms ≥ 0`, while its `size_bytes` is the raw
backend-reported value and is non-negative exactly when the backend reports
a non-negative number. -/
theorem C9_amended (u c : String) (e : ℚ) (r : HttpResponse)
    (he : 0 ≤ e) :
    (∀ q, (measure_latency u e (.response r)).latency_ms = some q →
      0 ≤ q) ∧
    (∀ z, (measure_latency u e (.response r)).size_bytes = some z →
      0 ≤ z) ∧
    (∀ q,
      (measure_centralized_download u e (.response r)).latency_ms = some q →
      0 ≤ q) ∧
    (∀ z,
      (measure_centralized_download u e (.response r)).size_bytes = some z →
      0 ≤ z) ∧
    (∀ q, (measure_p2p_download c e (.response r)).latency_ms = some q →
      0 ≤ q) ∧
    (∀ d z, r.p2pJson = some d → 0 ≤ d.bytes →
      (measure_p2p_download c e (.response r)).size_bytes = some z →
      0 ≤ z) := by
  have hlat : 0 ≤ pyRound2 (e * 1000) :=
    pyRound2_nonneg _ (by positivity)
  refine ⟨?_, ?_, ?_, ?_, ?_, ?_⟩
  · intro q hq
    simp only [measure_latency, Option.some.injEq] at hq
    exact hq ▸ hlat
  · intro z hz
    simp only [measure_latency, Option.some.injEq] at hz
    exact hz ▸ Int.natCast_nonneg _
  · intro q hq
    simp only [measure_centralized_download, Option.some.injEq] at hq
    exact hq ▸ hlat
  · intro z hz
    simp only [measure_centralized_download, Option.some.injEq] at hz
    exact hz ▸ Int.natCast_nonneg _
  · intro q hq
    by_cases h200 : r.status_code = 200
    · cases hj : r.p2pJson with
      | some d =>
          simp only [measure_p2p_download, if_pos h200, hj,
            Option.some.injEq] at hq
          exact hq ▸ hlat
      | none => simp [measure_p2p_download, if_pos h200, hj] at hq
    · simp [measure_p2p_download, if_neg h200] at hq
  · intro d z hj hb hz
    by_cases h200 : r.status_code = 200
    · simp only [measure_p2p_download, if_pos h200, hj,
        Option.some.injEq] at hz
      exact hz ▸ hb
    · simp [measure_p2p_download, if_neg h200] at hz

/-- Witness for the amended C9 at elapsed time 1/10 s, a 1000-byte
centralized response, and a P2P response reporting 5 bytes. -/
theorem C9_witness :
    (0 : ℚ) ≤ 1/10 ∧
    (∀ q,
      (measure_latency "url" (1/10) (.response resp200)).latency_ms =
        some q → 0 ≤ q) ∧
    (∀ d z, respP2PBytes5.p2pJson = some d → 0 ≤ d.bytes →
      (measure_p2p_download "cid" (1/10)
        (.response respP2PBytes5)).size_bytes = some z → 0 ≤ z) :=
  ⟨by norm_num,
    (C9_amended "url" "cid" (1/10) resp200 (by norm_num)).1,
    (C9_amended "url" "cid" (1/10) respP2PBytes5 (by norm_num)).2.2.2.2.2⟩

/-- Counterexample to C1: when the health probe returns status 500 (a
non-200 response), `main` does not print the offline message and does not
return early — it proceeds and performs 6 centralized sampling calls on the
2×3 demo grid, contradicting the claim that every non-200 outcome halts the
run with zero sampling calls. -/
theorem C1_counterexample :
    (main (.response 500) true outs2x3).offlineReturn = false ∧
    (main (.response 500) true outs2x3).samplerCalls = 6 := by
  refine ⟨rfl, by decide⟩

/-- C1 amended: only a raised request exception on the health probe makes
`main` print the offline message and return before any sampling (zero
centralized download measurements); every HTTP response — status 200 or
not — lets the run proceed to sampling (a non-200 status only prints a
warning), performing one centralized sampling call per recorded
target/iteration slot. -/
theorem C1_health_gate (msg : String) (s : ℕ) (hasMPL : Bool)
    (urlOuts : List (List (ℚ × NetOutcome))) :
    ((main (.requestError msg) hasMPL urlOuts).offlineReturn = true ∧
      (main (.requestError msg) hasMPL urlOuts).samplerCalls = 0 ∧
      (main (.requestError msg) hasMPL urlOuts).persisted = none) ∧
    ((main (.response s) hasMPL urlOuts).offlineReturn = false ∧
      (main (.response s) hasMPL urlOuts).samplerCalls =
        (urlOuts.map List.length).sum) :=
  ⟨⟨rfl, rfl, rfl⟩, rfl, rfl⟩

/-- C6: whenever the demo-mode synthetic P2P summary is generated (chart
library present, at least one centralized record), it equals exactly
`{avg: c.avg*0.3, min: c.min*0.2, max: c.max*0.4}` of the centralized
summary `c`; and the persisted `benchmark_results.json` snapshot (written
before the fabrication) contains no P2P summary and no P2P records at all,
so no synthetic figure is ever persisted as a real sample. -/
theorem C6_demo_mock (s : ℕ) (urlOuts : List (List (ℚ × NetOutcome)))
    (doc : PersistedDoc) (c : DemoSummary)
    (hdoc : (main (.response s) true urlOuts).persisted = some doc)
    (hc : doc.summary_centralized = some c)
    (hne : doc.centralized_results ≠ []) :
    (main (.response s) true urlOuts).chartSummaryP2P = some
      { avg_latency_ms := c.avg_latency_ms * (3/10)
        min_latency_ms := c.min_latency_ms * (1/5)
        max_latency_ms := c.max_latency_ms * (2/5) } ∧
    doc.summary_p2p = none ∧
    doc.p2p_results = [] := by
  simp only [main, Option.some.injEq] at hdoc
  subst hdoc
  simp only at hc hne
  refine ⟨?_, rfl, rfl⟩
  simp only [main]
  rw [hc]
  have hb : (collectResults (measure_centralized_download "url")
      urlOuts).isEmpty = false := by
    simpa [List.isEmpty_iff] using hne
  simp [hb]

/-- Witness for C6 on the concrete 2×3 all-success run: the persisted
document has no P2P data and the fabricated chart summary is exactly
(30, 20, 40) = (100·0.3, 100·0.2, 100·0.4). -/
theorem C6_witness :
    (main (.response 200) true outs2x3).persisted = some persistedDoc6 ∧
    persistedDoc6.summary_centralized = some
      { avg_latency_ms := 100, min_latency_ms := 100,
        max_latency_ms := 100 } ∧
    persistedDoc6.centralized_results ≠ [] ∧
    ((main (.response 200) true outs2x3).chartSummaryP2P = some
      { avg_latency_ms := (100 : ℚ) * (3/10)
        min_latency_ms := (100 : ℚ) * (1/5)
        max_latency_ms := (100 : ℚ) * (2/5) } ∧
      persistedDoc6.summary_p2p = none ∧
      persistedDoc6.p2p_results = []) :=
  ⟨by decide, rfl, by decide,
    C6_demo_mock 200 outs2x3 persistedDoc6
      { avg_latency_ms := 100, min_latency_ms := 100, max_latency_ms := 100 }
      (by decide) rfl (by decide)⟩

/-- C2: for each retrieval kind's list D of successful latency samples in
`run_benchmark`: with n ≥ 2 the summary holds the mean of D rounded to 2
decimals, the exact (unrounded) minimum and maximum of D, and the sample
standard deviation of D rounded to 2 decimals; with n = 1 the summary
exists with `std_dev = 0`; with n = 0 the kind has no summary entry. -/
theorem C2_summary_statistics
    (p2pOuts centralOuts : List (List (ℚ × NetOutcome))) (D E : List ℚ)
    (hD : D =
      latenciesOf ((run_benchmark p2pOuts centralOuts).centralized_results))
    (hE : E = latenciesOf ((run_benchmark p2pOuts centralOuts).p2p_results)) :
    ((2 ≤ D.length →
      (run_benchmark p2pOuts centralOuts).summary_centralized = some
        { avg_latency_ms := pyRound2 (mean D)
          min_latency_ms := listMin D
          max_latency_ms := listMax D
          std_dev := round2R (stdev D) } ∧
      listMin D ∈ D ∧ listMax D ∈ D ∧
      ∀ d ∈ D, listMin D ≤ d ∧ d ≤ listMax D) ∧
    (D.length = 1 →
      ∃ st, (run_benchmark p2pOuts centralOuts).summary_centralized =
        some st ∧ st.std_dev = 0) ∧
    (D.length = 0 →
      (run_benchmark p2pOuts centralOuts).summary_centralized = none)) ∧
    ((2 ≤ E.length →
      (run_benchmark p2pOuts centralOuts).summary_p2p = some
        { avg_latency_ms := pyRound2 (mean E)
          min_latency_ms := listMin E
          max_latency_ms := listMax E
          std_dev := round2R (stdev E) } ∧
      listMin E ∈ E ∧ listMax E ∈ E ∧
      ∀ d ∈ E, listMin E ≤ d ∧ d ≤ listMax E) ∧
    (E.length = 1 →
      ∃ st, (run_benchmark p2pOuts centralOuts).summary_p2p =
        some st ∧ st.std_dev = 0) ∧
    (E.length = 0 →
      (run_benchmark p2pOuts centralOuts).summary_p2p = none)) := by
  subst hD
  subst hE
  have hfixC :
      ∀ d ∈ latenciesOf
        ((run_benchmark p2pOuts centralOuts).centralized_results),
        pyRound2 d = d :=
    latenciesOf_round_fixed _ (centralized_latency_round_fixed "url")
      centralOuts
  have hfixP :
      ∀ d ∈ latenciesOf ((run_benchmark p2pOuts centralOuts).p2p_results),
        pyRound2 d = d :=
    latenciesOf_round_fixed _ (p2p_latency_round_fixed "cid") p2pOuts
  constructor
  · refine ⟨fun h2 => ?_, fun h1 => ⟨_, summarize_of_one _ h1, rfl⟩,
      fun h0 => summarize_of_nil _ h0⟩
    have hne : latenciesOf
        ((run_benchmark p2pOuts centralOuts).centralized_results) ≠ [] := by
      intro h; rw [h] at h2; simp at h2
    exact ⟨summarize_of_two_le _ h2 hfixC, listMin_mem _ hne,
      listMax_mem _ hne, fun d hd => ⟨listMin_le _ d hd, le_listMax _ d hd⟩⟩
  · refine ⟨fun h2 => ?_, fun h1 => ⟨_, summarize_of_one _ h1, rfl⟩,
      fun h0 => summarize_of_nil _ h0⟩
    have hne : latenciesOf
        ((run_benchmark p2pOuts centralOuts).p2p_results) ≠ [] := by
      intro h; rw [h] at h2; simp at h2
    exact ⟨summarize_of_two_le _ h2 hfixP, listMin_mem _ hne,
      listMax_mem _ hne, fun d hd => ⟨listMin_le _ d hd, le_listMax _ d hd⟩⟩

/-- Witness for C2 on the concrete 2×3 all-success run with six 100 ms
samples. -/
theorem C2_witness :
    ([100, 100, 100, 100, 100, 100] : List ℚ) =
      latenciesOf ((run_benchmark [] outs2x3).centralized_results) ∧
    ([] : List ℚ) = latenciesOf ((run_benchmark [] outs2x3).p2p_results) ∧
    2 ≤ ([100, 100, 100, 100, 100, 100] : List ℚ).length ∧
    ((run_benchmark [] outs2x3).summary_centralized = some
      { avg_latency_ms := pyRound2 (mean [100, 100, 100, 100, 100, 100])
        min_latency_ms := listMin [100, 100, 100, 100, 100, 100]
        max_latency_ms := listMax [100, 100, 100, 100, 100, 100]
        std_dev := round2R (stdev [100, 100, 100, 100, 100, 100]) } ∧
      listMin [100, 100, 100, 100, 100, 100] ∈
        ([100, 100, 100, 100, 100, 100] : List ℚ) ∧
      listMax [100, 100, 100, 100, 100, 100] ∈
        ([100, 100, 100, 100, 100, 100] : List ℚ) ∧
      ∀ d ∈ ([100, 100, 100, 100, 100, 100] : List ℚ),
        listMin [100, 100, 100, 100, 100, 100] ≤ d ∧
        d ≤ listMax [100, 100, 100, 100, 100, 100]) :=
  ⟨by decide, by decide, by norm_num,
    ((C2_summary_statistics [] outs2x3 [100, 100, 100, 100, 100, 100] []
      (by decide) (by decide)).1).1 (by norm_num)⟩

/-- Counterexample to C7: on the latency list [0, 2] the code's `std_dev`
is `round(statistics.stdev([0,2]), 2) = round(√2, 2) = 1.41`, whereas the
population standard deviation the claim names is exactly 1; the two rounded
values differ. -/
theorem C7_counterexample :
    ((run_benchmark [] outs1x2).summary_centralized.map Summary.std_dev) =
      some ((141 : ℝ)/100) ∧
    round2R (specPopulationStdev [0, 2]) = 1 ∧
    ((141 : ℝ)/100 ≠ 1) ∧
    latenciesOf ((run_benchmark [] outs1x2).centralized_results) =
      [0, 2] := by
  have hlat : latenciesOf ((run_benchmark [] outs1x2).centralized_results) =
      [0, 2] := by decide
  have hsum : (run_benchmark [] outs1x2).summary_centralized =
      summarize
        (latenciesOf ((run_benchmark [] outs1x2).centralized_results)) := rfl
  have hv : sampleVar ([0, 2] : List ℚ) = 2 := by decide
  have hst : stdev ([0, 2] : List ℚ) = Real.sqrt 2 := by
    unfold stdev; rw [hv]; norm_num
  have hsq : Real.sqrt 2 ^ 2 = 2 := Real.sq_sqrt (by norm_num)
  have hnn : (0 : ℝ) ≤ Real.sqrt 2 := Real.sqrt_nonneg 2
  have hlow : (141 : ℝ) ≤ Real.sqrt 2 * 100 := by
    nlinarith [hsq, hnn, sq_nonneg (Real.sqrt 2 - 141/100),
      sq_nonneg (Real.sqrt 2 + 141/100)]
  have hhigh : Real.sqrt 2 * 100 < 283/2 := by
    nlinarith [hsq, hnn, sq_nonneg (Real.sqrt 2 - 283/200),
      sq_nonneg (Real.sqrt 2 + 283/200)]
  have hfl : ⌊Real.sqrt 2 * 100⌋ = 141 := by
    rw [Int.floor_eq_iff]
    constructor
    · exact_mod_cast hlow
    · push_cast; linarith
  have hround : roundHalfEvenR (Real.sqrt 2 * 100) = 141 := by
    unfold roundHalfEvenR
    rw [hfl]
    have hcond : Real.sqrt 2 * 100 - ((141 : ℤ) : ℝ) < 1/2 := by
      push_cast; linarith
    rw [if_pos hcond]
  have hr2 : round2R (Real.sqrt 2) = 141/100 := by
    unfold round2R
    rw [hround]
    norm_num
  have hpop : specPopulationStdev [0, 2] = 1 := by
    unfold specPopulationStdev
    have hq : ((([0, 2] : List ℚ).map
        (fun x => (x - mean [0, 2]) ^ 2)).sum /
        ((([0, 2] : List ℚ).length : ℕ) : ℚ) : ℚ) = 1 := by decide
    rw [hq]
    norm_num
  have hpr : round2R (specPopulationStdev [0, 2]) = 1 := by
    rw [hpop]
    have := round2R_intCast 1
    simpa using this
  refine ⟨?_, hpr, by norm_num, hlat⟩
  rw [hsum, hlat, summarize_of_two_le _ (by norm_num) (by decide)]
  simp only [Option.map_some']
  rw [hst, hr2]

/-- C7 amended: the `std_dev` in each kind's summary is the
Bessel-corrected *sample* standard deviation (`statistics.stdev`,
`√(Σ(x-mean)²/(n-1))`) of the kind's successful latency samples, rounded to
2 decimals, when n ≥ 2; it is 0 when n = 1; and the entry is absent when
n = 0. -/
theorem C7_sample_stdev (p2pOuts centralOuts : List (List (ℚ × NetOutcome)))
    (D : List ℚ)
    (hD : D =
      latenciesOf
        ((run_benchmark p2pOuts centralOuts).centralized_results)) :
    (2 ≤ D.length →
      ∃ st, (run_benchmark p2pOuts centralOuts).summary_centralized =
        some st ∧
        st.std_dev = round2R (Real.sqrt
          (((D.map (fun x => (x - mean D) ^ 2)).sum /
            ((D.length : ℚ) - 1) : ℚ) : ℝ))) ∧
    (D.length = 1 →
      ∃ st, (run_benchmark p2pOuts centralOuts).summary_centralized =
        some st ∧ st.std_dev = 0) ∧
    (D.length = 0 →
      (run_benchmark p2pOuts centralOuts).summary_centralized = none) := by
  subst hD
  have hfix :
      ∀ d ∈ latenciesOf
        ((run_benchmark p2pOuts centralOuts).centralized_results),
        pyRound2 d = d :=
    latenciesOf_round_fixed _ (centralized_latency_round_fixed "url")
      centralOuts
  exact ⟨fun h2 => ⟨_, summarize_of_two_le _ h2 hfix, rfl⟩,
    fun h1 => ⟨_, summarize_of_one _ h1, rfl⟩,
    fun h0 => summarize_of_nil _ h0⟩

/-- Witness for the amended C7 on the concrete run with latency list
[0, 2]. -/
theorem C7_witness :
    ([0, 2] : List ℚ) =
      latenciesOf ((run_benchmark [] outs1x2).centralized_results) ∧
    2 ≤ ([0, 2] : List ℚ).length ∧
    ∃ st, (run_benchmark [] outs1x2).summary_centralized = some st ∧
      st.std_dev = round2R (Real.sqrt
        (((([0, 2] : List ℚ).map
            (fun x => (x - mean [0, 2]) ^ 2)).sum /
          ((([0, 2] : List ℚ).length : ℚ) - 1) : ℚ) : ℝ)) :=
  ⟨by decide, by norm_num,
    (C7_sample_stdev [] outs1x2 [0, 2] (by decide)).1 (by norm_num)⟩

/-- C8: a run over 2 URLs × 3 iterations in which every centralized request
succeeds with a fixed 100 ms latency yields exactly 6 centralized records
and a centralized summary with avg = min = max = 100.0 and
std_dev = 0.0. -/
theorem C8_fixed_latency_run :
    ((run_benchmark [] outs2x3).centralized_results).length = 6 ∧
    (run_benchmark [] outs2x3).summary_centralized = some
      { avg_latency_ms := 100, min_latency_ms := 100, max_latency_ms := 100,
        std_dev := 0 } := by
  constructor
  · decide
  · have hsum : (run_benchmark [] outs2x3).summary_centralized =
        summarize
          (latenciesOf ((run_benchmark [] outs2x3).centralized_results)) :=
      rfl
    have hlat : latenciesOf ((run_benchmark [] outs2x3).centralized_results) =
        [100, 100, 100, 100, 100, 100] := by decide
    rw [hsum, hlat, summarize_of_two_le _ (by norm_num) (by decide)]
    have hv : sampleVar ([100, 100, 100, 100, 100, 100] : List ℚ) = 0 := by
      decide
    have hst : stdev ([100, 100, 100, 100, 100, 100] : List ℚ) = 0 := by
      unfold stdev; rw [hv]; simp
    have h0 : round2R (0 : ℝ) = 0 := by
      have := round2R_intCast 0
      simpa using this
    simp only [Option.some.injEq, Summary.mk.injEq]
    refine ⟨by decide, by decide, by decide, ?_⟩
    rw [hst, h0]

end Monitor
